import Mathlib

/-
Verification of the scope-guard header `src/header/scoped_exit.hxx`
(namespace pc) and its behaviour at the call sites of
`src/sample/run.cxx`, as a shallow embedding.

The header declares, for an invocable type F:

  struct scoped_exit {
    F f;                                      -- the stored callable, only field
    scoped_exit(F&& f) : f(std::forward<F>(f)) {}
    ~scoped_exit() noexcept(std::is_nothrow_invocable_v<F>) { f(); }
    -- copy and move construction and assignment are deleted
  };
  using finally      = scoped_exit;
  using final_action = scoped_exit;

A zero-argument callable is modelled by `Action`: the list of output
events its invocation writes, whether it then raises an exception, and
whether its type is statically nothrow-invocable
(std::is_nothrow_invocable_v).  Exceptions are modelled by their message
string.  The surrounding C++ runtime rules that the embedding encodes:

  * a callable that is statically nothrow (noexcept) yet raises makes the
    process terminate at the noexcept boundary;
  * an exception escaping a destructor that is executed while another
    exception is already propagating (stack unwinding) terminates the
    process;
  * otherwise an exception raised with none in flight propagates to the
    enclosing handler.
-/

namespace pc

/-- Exception values, identified by their message text. -/
abbrev Err := String

/-- Model of a zero-argument callable F: the output events an invocation
writes, the exception it then raises (if any), and the static fact
std::is_nothrow_invocable_v about its type. -/
structure Action where
  effects : List String
  raises : Option Err
  nothrow : Bool
deriving Repr, DecidableEq

/-- Result of executing a fragment of the program: ordinary completion, an
exception propagating to the enclosing handler, or process termination via
std::terminate. -/
inductive Outcome where
  | normal : Outcome
  | raised : Err → Outcome
  | terminated : Outcome
deriving Repr, DecidableEq

/-- Invoking a callable: its output events happen, then it either returns or
raises.  A callable whose type is statically nothrow yet raises hits the
noexcept boundary and the process terminates. -/
def Action.invoke (a : Action) : List String × Outcome :=
  (a.effects,
    match a.raises with
    | none => Outcome.normal
    | some e => if a.nothrow then Outcome.terminated else Outcome.raised e)

/-- The struct pc::scoped_exit of src/header/scoped_exit.hxx, lines 10 to 31.
It stores the callable and nothing else (lines 12 to 14: the comment in the
header reads, store the function only, no need to store a 2nd variable). -/
structure scoped_exit where
  f : Action
deriving Repr, DecidableEq

/-- Constructor scoped_exit(F&& f) : f(std::forward<F>(f)) \x7b\x7d, line 15
of the header: the callable is moved into the guard; there is no second
parameter and no other field to set; no output is produced and the callable
is not invoked.  The first component is the constructed guard, the second
the (empty) output of construction. -/
def scoped_exit.construct (a : Action) : scoped_exit × List String :=
  (⟨a⟩, [])

/-- The declared noexcept specification of the destructor, lines 17 to 21 of
the header: noexcept(std::is_nothrow_invocable_v<F>). -/
def scoped_exit.dtorNoexcept (g : scoped_exit) : Bool :=
  g.f.nothrow

/-- Destructor body, lines 22 to 24 of the header: invoke the stored
callable, unconditionally.  `unwinding` is the runtime context at the moment
of destruction: `some e0` when exception e0 is already propagating (the
destructor runs as part of stack unwinding), `none` otherwise.  The body
itself never reads this context; it only matters for what the C++ runtime
does when the invocation raises: with an exception already in flight the new
exception cannot escape the destructor and the process terminates, with none
in flight it propagates.  When the invocation returns normally, a
propagating primary exception simply continues. -/
def scoped_exit.destroy (g : scoped_exit) (unwinding : Option Err) :
    List String × Outcome :=
  match g.f.invoke with
  | (out, Outcome.normal) =>
      (out,
        match unwinding with
        | none => Outcome.normal
        | some e0 => Outcome.raised e0)
  | (out, Outcome.raised e) =>
      (out,
        match unwinding with
        | none => Outcome.raised e
        | some _ => Outcome.terminated)
  | (out, Outcome.terminated) => (out, Outcome.terminated)

/-- Destroy a list of guards in the given order (the list is already in
destruction order), threading the propagating-exception state through; once
the process has terminated nothing further runs. -/
def destroyAll : List scoped_exit → Option Err → List String × Outcome
  | [], none => ([], Outcome.normal)
  | [], some e => ([], Outcome.raised e)
  | g :: rest, exc =>
      match g.destroy exc with
      | (out, Outcome.terminated) => (out, Outcome.terminated)
      | (out, Outcome.normal) =>
          let r2 := destroyAll rest none
          (out ++ r2.1, r2.2)
      | (out, Outcome.raised e) =>
          let r2 := destroyAll rest (some e)
          (out ++ r2.1, r2.2)

/-- The statements a scope body executes after the guard declarations: it
writes some output and then either falls off the end of the block or raises
an exception before reaching scope exit. -/
structure Body where
  effects : List String
  raises : Option Err
deriving Repr, DecidableEq

/-- Run one scope, as in the functions of src/sample/run.cxx: the guards are
declared (constructed) in the given order at the top of the block, the body
then runs, and at scope exit the guards are destroyed in reverse declaration
order; the unwinding context of the destructors is set by whether the body
raised.  The result is the full output trace of the scope and its outcome. -/
def runScope (guards : List Action) (body : Body) : List String × Outcome :=
  let ctorOut := (guards.map (fun a => (scoped_exit.construct a).2)).flatten
  let declared := guards.map (fun a => (scoped_exit.construct a).1)
  let r := destroyAll declared.reverse body.raises
  (ctorOut ++ body.effects ++ r.1, r.2)

/-- Alias pc::finally of the header (lines 35 to 36): the same type. -/
def «finally» : Type := scoped_exit

/-- Alias pc::final_action of the header (lines 37 to 38): the same type. -/
def final_action : Type := scoped_exit

/-- Candidate class operations of scoped_exit whose admissibility the
compiler decides from the class declaration alone: construction from a value
(invocable or not), and the four copy and move special members. -/
inductive ClassOp where
  | constructFrom : Bool → ClassOp
  | copyConstruct : ClassOp
  | moveConstruct : ClassOp
  | copyAssign : ClassOp
  | moveAssign : ClassOp
deriving Repr, DecidableEq

/-- Compile-time admissibility of each candidate operation, read off the
class declaration: line 10 of the header gates the template on
requires(std::is_invocable_v<F>), so construction from a non-invocable
value is rejected; lines 27 to 30 delete copy construction, move
construction, move assignment and copy assignment.  This is a function of
the operation alone: no runtime state enters the decision. -/
def compiles : ClassOp → Bool
  | ClassOp.constructFrom invocable => invocable
  | ClassOp.copyConstruct => false
  | ClassOp.moveConstruct => false
  | ClassOp.copyAssign => false
  | ClassOp.moveAssign => false


/-- Helper: destroying a list of guards with no exception in flight, when no
stored callable raises, writes the output of each callable in list order and
completes normally. -/
theorem destroyAll_clean : ∀ (gs : List scoped_exit),
    (∀ g ∈ gs, g.f.raises = none) →
    destroyAll gs none =
      ((gs.map (fun g => g.f.effects)).flatten, Outcome.normal)
  | [], _ => rfl
  | g :: rest, h => by
      have hg : g.f.raises = none := h g (List.mem_cons_self g rest)
      have ih := destroyAll_clean rest (fun x hx => h x (List.mem_cons_of_mem g hx))
      simp [destroyAll, scoped_exit.destroy, Action.invoke, hg, ih]

/-- C3: a guard constructed and allowed to reach natural scope exit with no
failure in flight runs its bound action exactly once, precisely at scope
exit: construction writes nothing and invokes nothing, and the trace of the
scope is exactly the body output followed by each action output once, in
destruction order, with normal completion. -/
theorem action_runs_exactly_once_at_scope_exit
    (guards : List Action) (body : Body)
    (hbody : body.raises = none)
    (hacts : ∀ a ∈ guards, a.raises = none) :
    (∀ a : Action, (scoped_exit.construct a).2 = []) ∧
    runScope guards body =
      (body.effects ++ (guards.reverse.map Action.effects).flatten,
        Outcome.normal) := by
  refine ⟨fun _ => rfl, ?_⟩
  have h : ∀ g ∈ (guards.map (fun a => (scoped_exit.construct a).1)).reverse,
      g.f.raises = none := by
    intro g hg
    rw [List.mem_reverse, List.mem_map] at hg
    obtain ⟨a, ha, rfl⟩ := hg
    exact hacts a ha
  have hd := destroyAll_clean
    ((guards.map (fun a => (scoped_exit.construct a).1)).reverse) h
  simp only [scoped_exit.construct, List.map_reverse, List.map_map,
    Function.comp] at hd
  simp [runScope, scoped_exit.construct, hbody, hd, List.map_reverse,
    List.map_map, Function.comp]
  rfl

/-- Witness for C3 at a concrete scope: two guards and a body, natural exit. -/
theorem action_runs_exactly_once_at_scope_exit_witness :
    (∀ a : Action, (scoped_exit.construct a).2 = []) ∧
    runScope [⟨["one"], none, false⟩, ⟨["two"], none, false⟩]
        ⟨["body"], none⟩ =
      (["body", "two", "one"], Outcome.normal) :=
  action_runs_exactly_once_at_scope_exit
    [⟨["one"], none, false⟩, ⟨["two"], none, false⟩] ⟨["body"], none⟩
    rfl (by decide)

/-- C8: two guards declared in order G1, G2 in one scope fire in reverse
declaration order at scope exit: the output of G2 comes before the output of
G1 in the trace. -/
theorem guards_fire_in_reverse_declaration_order
    (a1 a2 : Action) (body : Body)
    (hbody : body.raises = none)
    (h1 : a1.raises = none) (h2 : a2.raises = none) :
    runScope [a1, a2] body =
      (body.effects ++ (a2.effects ++ (a1.effects ++ [])), Outcome.normal) := by
  simp [runScope, scoped_exit.construct, destroyAll, scoped_exit.destroy,
    Action.invoke, h1, h2, hbody]

/-- Witness for C8 at a concrete scope: the trace shows the second guard
firing first. -/
theorem guards_fire_in_reverse_declaration_order_witness :
    runScope [⟨["first declared"], none, false⟩,
              ⟨["second declared"], none, false⟩] ⟨["body"], none⟩ =
      (["body"] ++ (["second declared"] ++ (["first declared"] ++ [])),
        Outcome.normal) :=
  guards_fire_in_reverse_declaration_order
    ⟨["first declared"], none, false⟩ ⟨["second declared"], none, false⟩
    ⟨["body"], none⟩ rfl rfl rfl

/-- C5: with no failure in flight at destruction, an action that writes its
output and then raises has its output appear in the trace and its exception
propagate to the enclosing handler as the sole failure (the scenario of
throw_but_catch in src/sample/run.cxx). -/
theorem cleanup_failure_propagates_when_not_unwinding
    (a : Action) (body : Body) (e : Err)
    (hbody : body.raises = none)
    (hraise : a.raises = some e) (hnt : a.nothrow = false) :
    runScope [a] body = (body.effects ++ (a.effects ++ []), Outcome.raised e) := by
  simp [runScope, scoped_exit.construct, destroyAll, scoped_exit.destroy,
    Action.invoke, hbody, hraise, hnt]

/-- Witness for C5 at the literal scenario of throw_but_catch: the console
write happened and the failure is observed with the expected message. -/
theorem cleanup_failure_propagates_when_not_unwinding_witness :
    runScope [⟨["During Cleanup, we had to throw"],
               some "Sorry. Something during Cleanup errored out", false⟩]
        ⟨["Block Started", "Block Ended"], none⟩ =
      (["Block Started", "Block Ended"] ++
          (["During Cleanup, we had to throw"] ++ []),
        Outcome.raised "Sorry. Something during Cleanup errored out") :=
  cleanup_failure_propagates_when_not_unwinding
    ⟨["During Cleanup, we had to throw"],
      some "Sorry. Something during Cleanup errored out", false⟩
    ⟨["Block Started", "Block Ended"], none⟩
    "Sorry. Something during Cleanup errored out" rfl rfl rfl

/-- C6: the declared noexcept specification of the destructor equals the
static nothrow classification of the action; an action that never raises
makes the destructor raise nothing new (it completes normally, or merely
lets an already propagating primary continue); and an action that may raise
can make the destructor itself raise. -/
theorem dtor_noexcept_tracks_action :
    (∀ g : scoped_exit, g.dtorNoexcept = g.f.nothrow) ∧
    (∀ (g : scoped_exit) (u : Option Err), g.f.raises = none →
      (g.destroy u).2 =
        (match u with
         | none => Outcome.normal
         | some e0 => Outcome.raised e0)) ∧
    (∃ g : scoped_exit, g.dtorNoexcept = false ∧
      (g.destroy none).2 = Outcome.raised "boom") := by
  refine ⟨fun g => rfl, ?_, ⟨⟨⟨[], some "boom", false⟩⟩, rfl, rfl⟩⟩
  intro g u hg
  cases u <;> simp [scoped_exit.destroy, Action.invoke, hg]

/-- Witness for C6 at a concrete guard: a nothrow action destroyed while a
primary failure propagates lets exactly that primary continue. -/
theorem dtor_noexcept_tracks_action_witness :
    ((⟨⟨["x"], none, true⟩⟩ : scoped_exit).destroy (some "p")).2 =
      Outcome.raised "p" :=
  dtor_noexcept_tracks_action.2.1 ⟨⟨["x"], none, true⟩⟩ (some "p") rfl

/-- C7: construction from a non-invocable value and all four copy and move
special members are rejected by the class declaration alone, before any
program runs, while construction from an invocable value is accepted. -/
theorem non_invocable_and_copy_move_rejected :
    compiles (ClassOp.constructFrom false) = false ∧
    compiles ClassOp.copyConstruct = false ∧
    compiles ClassOp.copyAssign = false ∧
    compiles ClassOp.moveConstruct = false ∧
    compiles ClassOp.moveAssign = false ∧
    compiles (ClassOp.constructFrom true) = true := by
  decide

/-- C9: the guard stores only the callable (every guard equals the guard
rebuilt from its stored callable alone), and the destructor invokes that
callable unconditionally: the output it writes is exactly the invocation
output of the callable, identical whatever the unwinding context, so the
decision to invoke never consults whether a failure is propagating. -/
theorem destructor_invokes_unconditionally :
    (∀ g : scoped_exit, g = ⟨g.f⟩) ∧
    (∀ (g : scoped_exit) (u : Option Err),
      (g.destroy u).1 = (g.f.invoke).1) ∧
    (∀ (g : scoped_exit) (u v : Option Err),
      (g.destroy u).1 = (g.destroy v).1) := by
  have h1 : ∀ (g : scoped_exit) (u : Option Err),
      (g.destroy u).1 = (g.f.invoke).1 := by
    intro g u
    rcases hi : g.f.invoke with ⟨out, r⟩
    cases r <;> cases u <;> simp [scoped_exit.destroy, hi]
  exact ⟨fun g => rfl, h1, fun g u v => (h1 g u).trans (h1 g v).symm⟩

/-- C10: pc::finally and pc::final_action are exact aliases of
pc::scoped_exit, so every guard and every operation on a guard is literally
the same through either alias. -/
theorem finally_and_final_action_alias_scoped_exit :
    «finally» = scoped_exit ∧ final_action = scoped_exit :=
  ⟨rfl, rfl⟩

/-- C1 evaluation: at the scenario of throw_outside_cleanup_not_called in
src/sample/run.cxx (default construction, a body that raises before scope
exit), the header DOES invoke the action during unwinding: its output
appears in the trace, while the primary failure continues to the enclosing
handler.  The sample comments and the spec say the action is skipped. -/
theorem default_guard_invokes_action_during_unwind :
    runScope
        [⟨["As there was an exception outside, this was not called"],
          none, false⟩]
        ⟨["Block Started"], some "primary"⟩ =
      (["Block Started",
        "As there was an exception outside, this was not called"],
        Outcome.raised "primary") := by
  rfl

/-- C2 evaluation: with a primary failure propagating and an action that
raises during cleanup, the header has no catch: the secondary exception
escapes the destructor during unwinding and the process terminates, instead
of the secondary being discarded and the primary alone continuing. -/
theorem cleanup_failure_during_unwind_terminates :
    runScope
        [⟨["During Cleanup, we had to throw"], some "secondary", false⟩]
        ⟨["Block Started"], some "primary"⟩ =
      (["Block Started", "During Cleanup, we had to throw"],
        Outcome.terminated) := by
  rfl

/-- C4 evaluation: the single constructor of the header records nothing but
the action, and the guard carries no other state: two guards agree as soon
as their stored callables do, so no mode distinguishes them. -/
theorem construct_records_only_the_action :
    (∀ a : Action, scoped_exit.construct a = (⟨a⟩, [])) ∧
    (∀ g h : scoped_exit, g.f = h.f → g = h) := by
  refine ⟨fun a => rfl, ?_⟩
  intro g h hf
  cases g
  cases h
  cases hf
  rfl

/-- Witness for C4: two concretely equal-callable guards are equal. -/
theorem construct_records_only_the_action_witness :
    (⟨⟨["w"], none, true⟩⟩ : scoped_exit) = ⟨⟨["w"], none, true⟩⟩ :=
  construct_records_only_the_action.2 _ _ rfl

end pc
